import Mathlib

/-!
Shallow embedding of the quiz results-aggregation engine
(`GET /api/quizzes/{id}/results` route handler) of the virtual-anatomy
quiz backend.  Mongo `ObjectId` values are modelled as `String` (their
hex representation, as the handler itself only ever compares
`toString()` images).  The two prefetched catalog maps are modelled as
association lists from id strings to the fetched documents, and the
aggregation loop body is translated function by function from the
route handler.
-/

namespace QuizResults

/-- The four question kinds (`IQuestion["type"]`). -/
inductive QuestionType
  | multipleChoice
  | trueFalse
  | selectOrgan
  | shortAnswer
deriving DecidableEq, Repr

/-- Target kind of a `select-organ` question (`targetType: "mesh" | "group"`). -/
inductive TargetType
  | mesh
  | group
deriving DecidableEq, Repr

/-- A predefined answer option of a choice question
(`Answer { text, isCorrect }`); `Boolean(opt.isCorrect)` coerces a
missing flag to `false`, so the flag is modelled as `Bool`. -/
structure Answer where
  text : String
  isCorrect : Bool
deriving DecidableEq, Repr

/-- A quiz question (`IQuestion`).  `_id` is the optional Mongo
subdocument id; `answers`, `targetType` and `target_id` are the
type-specific optional fields. -/
structure Question where
  _id : Option String
  questionText : String
  type : QuestionType
  answers : Option (List Answer)
  targetType : Option TargetType
  target_id : Option String
deriving DecidableEq, Repr

/-- One answer entry of a submission (`ISubmissionAnswer`). -/
structure SubmissionAnswer where
  question_id : String
  selectedAnswerId_Index : Option Int
  responseText_ClickedMesh_id : Option String
  responseText_ShortAnswer : Option String
deriving DecidableEq, Repr

/-- A student submission; only the `answers` array is read by the
aggregation loop. -/
structure Submission where
  answers : List SubmissionAnswer
deriving DecidableEq, Repr

/-- A fetched mesh-catalog document (`LeanMeshCatalogItem`), restricted
to the fields the aggregator reads. -/
structure MeshCatalogItem where
  displayName : String
  organGroupIds : Option (List String)
deriving DecidableEq, Repr

/-- A fetched organ-group document (`LeanOrganGroup`), restricted to the
fields the aggregator reads. -/
structure OrganGroup where
  groupName : String
deriving DecidableEq, Repr

/-- One row of a question's `answersBreakdown`. -/
structure AnswerBreakdown where
  answerText : String
  studentCount : Nat
  isCorrectOption : Option Bool
deriving DecidableEq, Repr

/-- The per-question aggregate (`QuestionResult`). -/
structure QuestionResult where
  questionId : String
  questionText : String
  questionType : QuestionType
  totalSubmissionsForQuestion : Nat
  totalCorrect : Nat
  answersBreakdown : List AnswerBreakdown
  submittedTextAnswers : Option (List String)
  correctTargetDisplayName : Option String
deriving DecidableEq, Repr

/-- The prefetched `meshCatalogMap`: id string to fetched document,
keyed exactly as `new Map(meshCatalogDetailsArray.map ...)` builds it. -/
abbrev MeshMap := List (String × MeshCatalogItem)

/-- The prefetched `organGroupMap`. -/
abbrev GroupMap := List (String × OrganGroup)

/-- `submissions.map(sub => sub.answers.find(ans => ans.question_id === qid)).filter(defined)`:
the per-question list of considered submission answers, one (the first
matching) per submission that answered the question. -/
def questionSubmissions (submissions : List Submission) (qid : String) :
    List SubmissionAnswer :=
  (submissions.map fun sub =>
    sub.answers.find? fun ans => ans.question_id == qid).filterMap id

/-- `question._id?.toString()` followed by the `if (!s) continue` guard:
the id under which a question is aggregated, `none` when the question is
skipped (no `_id`, or an id rendering as the empty string). -/
def stableQuestionId (question : Question) : Option String :=
  match question._id with
  | some s => if s == "" then none else some s
  | none => none

/-- One fold step of the multiple-choice / true-false tally loop: given
`(optionCounts, totalCorrect)` and one considered submission answer,
bump the selected option's tally and the correct count when the selected
index is defined and in bounds, else leave the accumulator unchanged. -/
def mcqStep (question : Question) (acc : List Nat × Nat)
    (submittedAnswer : SubmissionAnswer) : List Nat × Nat :=
  match submittedAnswer.selectedAnswerId_Index, question.answers with
  | some idx, some answers =>
      if 0 ≤ idx ∧ idx < (answers.length : Int) then
        (acc.1.set idx.toNat (acc.1.getD idx.toNat 0 + 1),
         if ((answers.get? idx.toNat).map Answer.isCorrect).getD false then
           acc.2 + 1
         else acc.2)
      else acc
  | _, _ => acc

/-- The multiple-choice / true-false tally loop:
`optionCounts = new Array(question.answers?.length || 0).fill(0)` then
`questionSubmissions.forEach(...)`, returning `(optionCounts, totalCorrect)`. -/
def mcqFold (question : Question) (questionSubs : List SubmissionAnswer) :
    List Nat × Nat :=
  questionSubs.foldl (mcqStep question)
    (List.replicate (question.answers.getD []).length 0, 0)

/-- `question.answers?.forEach((opt, index) => push({opt.text, optionCounts[index], Boolean(opt.isCorrect)}))`,
with the running `index` made explicit. -/
def mcqBreakdownGo (optionCounts : List Nat) :
    Nat → List Answer → List AnswerBreakdown
  | _, [] => []
  | index, opt :: rest =>
      { answerText := opt.text
        studentCount := optionCounts.getD index 0
        isCorrectOption := some opt.isCorrect } ::
        mcqBreakdownGo optionCounts (index + 1) rest

/-- The answers breakdown of a choice question. -/
def mcqBreakdown (question : Question) (optionCounts : List Nat) :
    List AnswerBreakdown :=
  mcqBreakdownGo optionCounts 0 (question.answers.getD [])

/-- `answerTargetCounts[key] = (answerTargetCounts[key] || 0) + 1` on a
plain JS object: update in place if the key exists, else append, so the
key order is insertion order. -/
def bumpCount (counts : List (String × Nat)) (key : String) :
    List (String × Nat) :=
  match counts with
  | [] => [(key, 1)]
  | (k, v) :: rest =>
      if k == key then (k, v + 1) :: rest else (k, v) :: bumpCount rest key

/-- The correctness decision for one clicked mesh of a `select-organ`
question (written twice, identically, in the handler: once in the tally
loop, once when building the breakdown):
mesh target — plain id equality with `target_id`;
group target — the clicked mesh's catalog entry exists, has an
`organGroupIds` array, and some member equals `target_id`. -/
def soIsCorrect (meshCatalogMap : MeshMap) (question : Question)
    (clickedMeshId : String) : Bool :=
  match question.targetType with
  | some TargetType.mesh => some clickedMeshId == question.target_id
  | some TargetType.group =>
      match meshCatalogMap.lookup clickedMeshId with
      | some clickedMeshDetail =>
          match clickedMeshDetail.organGroupIds with
          | some organGroupIds =>
              organGroupIds.any fun groupId => some groupId == question.target_id
          | none => false
      | none => false
  | none => false

/-- The `select-organ` tally loop: build `answerTargetCounts` (keyed by
clicked mesh id, or the literal `"No Answer"` key for answers without a
clicked mesh) and `totalCorrect`. -/
def soFold (meshCatalogMap : MeshMap) (question : Question)
    (questionSubs : List SubmissionAnswer) : List (String × Nat) × Nat :=
  questionSubs.foldl
    (fun acc submittedAnswer =>
      match submittedAnswer.responseText_ClickedMesh_id with
      | some clickedMeshId =>
          (bumpCount acc.1 clickedMeshId,
           if soIsCorrect meshCatalogMap question clickedMeshId then
             acc.2 + 1
           else acc.2)
      | none => (bumpCount acc.1 "No Answer", acc.2))
    ([], 0)

/-- `if (l.contains k) l else l ++ [k]`: JS `Set.add` on a set kept in
insertion order. -/
def addIfAbsent (l : List String) (k : String) : List String :=
  if l.contains k then l else l ++ [k]

/-- `allClickedOrTargetMeshIds`: the distinct clicked mesh ids (the
`"No Answer"` key filtered out), plus — for a mesh-target question with a
`target_id` — the target mesh id itself. -/
def soBreakdownIds (question : Question) (counts : List (String × Nat)) :
    List String :=
  let clicked := (counts.map Prod.fst).filter fun k => k != "No Answer"
  match question.targetType, question.target_id with
  | some TargetType.mesh, some tid => addIfAbsent clicked tid
  | _, _ => clicked

/-- `meshDetail?.displayName || ` Unknown Mesh placeholder embedding the
first six characters of the id (JS `||` also replaces an empty display
name). -/
def soDisplayName (meshCatalogMap : MeshMap) (meshIdStr : String) : String :=
  match meshCatalogMap.lookup meshIdStr with
  | some meshDetail =>
      if meshDetail.displayName == "" then
        "Unknown Mesh (" ++ meshIdStr.take 6 ++ "...)"
      else meshDetail.displayName
  | none => "Unknown Mesh (" ++ meshIdStr.take 6 ++ "...)"

/-- The `select-organ` answers breakdown: one row per id in
`allClickedOrTargetMeshIds` (display name, tally `counts[id] || 0`,
correctness flag), then the `No Answer` row when its tally is truthy. -/
def soBreakdown (meshCatalogMap : MeshMap) (question : Question)
    (counts : List (String × Nat)) : List AnswerBreakdown :=
  ((soBreakdownIds question counts).map fun meshIdStr =>
    { answerText := soDisplayName meshCatalogMap meshIdStr
      studentCount := (counts.lookup meshIdStr).getD 0
      isCorrectOption := some (soIsCorrect meshCatalogMap question meshIdStr) })
  ++ (match counts.lookup "No Answer" with
      | some n =>
          if n == 0 then []
          else [{ answerText := "No Answer"
                  studentCount := n
                  isCorrectOption := some false }]
      | none => [])

/-- `submittedAnswer.responseText_ShortAnswer || "No Answer"`. -/
def shortAnswerText (submittedAnswer : SubmissionAnswer) : String :=
  match submittedAnswer.responseText_ShortAnswer with
  | some s => if s == "" then "No Answer" else s
  | none => "No Answer"

/-- `currentCorrectTargetDisplayName`: resolved for `select-organ`
questions with a `target_id`, from the mesh map (mesh target, falling
back to "Unknown Target Mesh") or the group map (group target, falling
back to "Unknown Target Group"). -/
def correctTargetName (meshCatalogMap : MeshMap) (organGroupMap : GroupMap)
    (question : Question) : Option String :=
  match question.type, question.target_id with
  | QuestionType.selectOrgan, some tid =>
      match question.targetType with
      | some TargetType.mesh =>
          some (match meshCatalogMap.lookup tid with
                | some m =>
                    if m.displayName == "" then "Unknown Target Mesh"
                    else m.displayName
                | none => "Unknown Target Mesh")
      | some TargetType.group =>
          some (match organGroupMap.lookup tid with
                | some g =>
                    if g.groupName == "" then "Unknown Target Group"
                    else g.groupName
                | none => "Unknown Target Group")
      | none => none
  | _, _ => none

/-- The body of the per-question loop: given the prefetched maps, the
submissions and a question together with its (non-empty) id string,
produce the pushed `QuestionResult`. -/
def questionResult (meshCatalogMap : MeshMap) (organGroupMap : GroupMap)
    (submissions : List Submission) (question : Question)
    (currentQuestionIdString : String) : QuestionResult :=
  let questionSubs := questionSubmissions submissions currentQuestionIdString
  if question.type = QuestionType.multipleChoice ∨
      question.type = QuestionType.trueFalse then
    let r := mcqFold question questionSubs
    { questionId := currentQuestionIdString
      questionText := question.questionText
      questionType := question.type
      totalSubmissionsForQuestion := questionSubs.length
      totalCorrect := r.2
      answersBreakdown := mcqBreakdown question r.1
      submittedTextAnswers := none
      correctTargetDisplayName := correctTargetName meshCatalogMap organGroupMap question }
  else if question.type = QuestionType.selectOrgan then
    let r := soFold meshCatalogMap question questionSubs
    { questionId := currentQuestionIdString
      questionText := question.questionText
      questionType := question.type
      totalSubmissionsForQuestion := questionSubs.length
      totalCorrect := r.2
      answersBreakdown := soBreakdown meshCatalogMap question r.1
      submittedTextAnswers := none
      correctTargetDisplayName := correctTargetName meshCatalogMap organGroupMap question }
  else if question.type = QuestionType.shortAnswer then
    { questionId := currentQuestionIdString
      questionText := question.questionText
      questionType := question.type
      totalSubmissionsForQuestion := questionSubs.length
      totalCorrect := 0
      answersBreakdown := []
      submittedTextAnswers := some (questionSubs.map shortAnswerText)
      correctTargetDisplayName := correctTargetName meshCatalogMap organGroupMap question }
  else
    { questionId := currentQuestionIdString
      questionText := question.questionText
      questionType := question.type
      totalSubmissionsForQuestion := questionSubs.length
      totalCorrect := 0
      answersBreakdown := []
      submittedTextAnswers := none
      correctTargetDisplayName := correctTargetName meshCatalogMap organGroupMap question }

/-- The whole aggregation loop: one `QuestionResult` per question with a
stable id, in quiz order; questions without a stable id are skipped
(`continue`). -/
def getResults (meshCatalogMap : MeshMap) (organGroupMap : GroupMap)
    (quizQuestions : List Question) (submissions : List Submission) :
    List QuestionResult :=
  quizQuestions.filterMap fun question =>
    (stableQuestionId question).map fun qid =>
      questionResult meshCatalogMap organGroupMap submissions question qid

/-- The guard of the choice-question tally step: the selected index is
defined and a valid bound into the question's answer array. -/
def hasValidIndex (question : Question) (a : SubmissionAnswer) : Bool :=
  match a.selectedAnswerId_Index, question.answers with
  | some idx, some answers => decide (0 ≤ idx ∧ idx < (answers.length : Int))
  | _, _ => false

/-- The tally step's correct-count guard: a valid selected index whose
option carries a true `isCorrect` flag. -/
def selectsCorrectOption (question : Question) (a : SubmissionAnswer) : Bool :=
  match a.selectedAnswerId_Index, question.answers with
  | some idx, some answers =>
      decide (0 ≤ idx ∧ idx < (answers.length : Int)) &&
        ((answers.get? idx.toNat).map Answer.isCorrect).getD false
  | _, _ => false

/-- Sum of the counts sitting at mask-true positions. -/
def maskedSum : List Bool → List Nat → Nat
  | b :: bs, x :: xs => (if b then x else 0) + maskedSum bs xs
  | _, _ => 0

theorem sum_set_bump (c : List Nat) (i : Nat) (h : i < c.length) :
    (c.set i (c.getD i 0 + 1)).sum = c.sum + 1 := by
  induction c generalizing i with
  | nil => simp at h
  | cons x xs ih =>
    cases i with
    | zero => simp [List.getD_cons_zero]; omega
    | succ j =>
      have hj : j < xs.length := Nat.lt_of_succ_lt_succ h
      simp only [List.getD_cons_succ, List.set_cons_succ, List.sum_cons]
      rw [ih j hj]
      omega

theorem maskedSum_set_bump (m : List Bool) :
    ∀ (c : List Nat) (i : Nat), i < c.length →
      maskedSum m (c.set i (c.getD i 0 + 1))
        = maskedSum m c + (if m.getD i false then 1 else 0) := by
  induction m with
  | nil => intro c i _; simp [maskedSum, List.getD]
  | cons b bs ih =>
    intro c i hi
    cases c with
    | nil => simp at hi
    | cons x xs =>
      cases i with
      | zero =>
        simp only [List.getD_cons_zero, List.set_cons_zero, maskedSum]
        cases b <;> simp [maskedSum] <;> omega
      | succ j =>
        have hj : j < xs.length := Nat.lt_of_succ_lt_succ hi
        simp only [List.getD_cons_succ, List.set_cons_succ, maskedSum]
        rw [ih xs j hj]
        omega

theorem maskedSum_replicate_zero (m : List Bool) :
    ∀ n : Nat, maskedSum m (List.replicate n 0) = 0 := by
  induction m with
  | nil => intro n; simp [maskedSum]
  | cons b bs ih =>
    intro n
    cases n with
    | zero => simp [maskedSum]
    | succ k => simp only [List.replicate, maskedSum, ih k]; cases b <;> simp

theorem sum_replicate_zero (n : Nat) : (List.replicate n (0 : Nat)).sum = 0 := by
  induction n with
  | zero => rfl
  | succ k ih => simp [List.replicate, ih]

theorem mcq_foldl_invariant (question : Question) :
    ∀ (l : List SubmissionAnswer) (c : List Nat) (t : Nat),
      c.length = (question.answers.getD []).length →
      (l.foldl (mcqStep question) (c, t)).1.length = c.length ∧
      (l.foldl (mcqStep question) (c, t)).1.sum
        = c.sum + l.countP (hasValidIndex question) ∧
      (l.foldl (mcqStep question) (c, t)).2
        = t + l.countP (selectsCorrectOption question) ∧
      maskedSum ((question.answers.getD []).map Answer.isCorrect)
          (l.foldl (mcqStep question) (c, t)).1
        = maskedSum ((question.answers.getD []).map Answer.isCorrect) c
            + l.countP (selectsCorrectOption question) := by
  intro l
  induction l with
  | nil => intro c t _; simp
  | cons a rest ih =>
    intro c t hc
    have hstep :
        ∃ c' t', mcqStep question (c, t) a = (c', t') ∧
          c'.length = c.length ∧
          c'.sum = c.sum + (if hasValidIndex question a then 1 else 0) ∧
          t' = t + (if selectsCorrectOption question a then 1 else 0) ∧
          maskedSum ((question.answers.getD []).map Answer.isCorrect) c'
            = maskedSum ((question.answers.getD []).map Answer.isCorrect) c
              + (if selectsCorrectOption question a then 1 else 0) := by
      cases hidx : a.selectedAnswerId_Index with
      | none =>
        refine ⟨c, t, ?_, rfl, ?_, ?_, ?_⟩ <;>
          simp [mcqStep, hasValidIndex, selectsCorrectOption, hidx]
      | some idx =>
        cases hans : question.answers with
        | none =>
          refine ⟨c, t, ?_, rfl, ?_, ?_, ?_⟩ <;>
            simp [mcqStep, hasValidIndex, selectsCorrectOption, hidx, hans]
        | some answers =>
          by_cases hb : 0 ≤ idx ∧ idx < (answers.length : Int)
          · have hlt : idx.toNat < c.length := by
              rw [hans] at hc
              simp only [Option.getD_some] at hc
              omega
            refine ⟨c.set idx.toNat (c.getD idx.toNat 0 + 1),
              if ((answers.get? idx.toNat).map Answer.isCorrect).getD false then
                t + 1 else t, ?_, ?_, ?_, ?_, ?_⟩
            · simp [mcqStep, hidx, hans, hb]
            · simp
            · rw [sum_set_bump c idx.toNat hlt]
              simp [hasValidIndex, hidx, hans, hb]
            · simp only [selectsCorrectOption, hidx, hans, hb, decide_True,
                Bool.true_and]
              by_cases hco :
                  (Option.map Answer.isCorrect answers[idx.toNat]?).getD false = true <;>
                simp [hco]
            · rw [maskedSum_set_bump _ c idx.toNat hlt]
              simp only [hans, Option.getD_some]
              have hmask :
                  (answers.map Answer.isCorrect).getD idx.toNat false
                    = (Option.map Answer.isCorrect answers[idx.toNat]?).getD false := by
                simp [List.getD, List.getElem?_map]
              simp only [hmask]
              simp only [selectsCorrectOption, hidx, hans, hb, decide_True,
                Bool.true_and]
              by_cases hco :
                  (Option.map Answer.isCorrect answers[idx.toNat]?).getD false = true <;>
                simp [hco]
          · refine ⟨c, t, ?_, rfl, ?_, ?_, ?_⟩ <;>
              simp [mcqStep, hasValidIndex, selectsCorrectOption, hidx, hans, hb]
    obtain ⟨c', t', hs, hlen, hsum, ht', hmsk⟩ := hstep
    have := ih c' t' (hlen.trans hc)
    simp only [List.foldl_cons, hs]
    refine ⟨by rw [this.1, hlen], ?_, ?_, ?_⟩
    · rw [this.2.1, hsum, List.countP_cons]
      by_cases h : hasValidIndex question a = true <;> simp [h] <;> omega
    · rw [this.2.2.1, ht', List.countP_cons]
      by_cases h : selectsCorrectOption question a = true <;> simp [h] <;> omega
    · rw [this.2.2.2, hmsk, List.countP_cons]
      by_cases h : selectsCorrectOption question a = true <;> simp [h] <;> omega

theorem drop_cons_getD (cs : List Nat) (i : Nat) (x : Nat) (xs : List Nat)
    (hd : cs.drop i = x :: xs) : cs.getD i 0 = x := by
  have h0 : cs[i]? = some x := by
    have := List.getElem?_drop cs i 0
    rw [hd] at this
    simpa using this.symm
  rw [List.getD_eq_getElem?_getD, h0]
  rfl

theorem drop_cons_drop_succ (cs : List Nat) (i : Nat) (x : Nat) (xs : List Nat)
    (hd : cs.drop i = x :: xs) : cs.drop (i + 1) = xs := by
  rw [← List.drop_drop, hd]
  rfl

theorem mcqBreakdownGo_map_answerText (cs : List Nat) :
    ∀ (l : List Answer) (i : Nat),
      (mcqBreakdownGo cs i l).map AnswerBreakdown.answerText = l.map Answer.text := by
  intro l
  induction l with
  | nil => intro i; rfl
  | cons opt rest ih => intro i; simp [mcqBreakdownGo, ih (i + 1)]

theorem mcqBreakdownGo_map_studentCount (cs : List Nat) :
    ∀ (l : List Answer) (i : Nat), (cs.drop i).length = l.length →
      (mcqBreakdownGo cs i l).map AnswerBreakdown.studentCount = cs.drop i := by
  intro l
  induction l with
  | nil =>
    intro i h
    have he : cs.drop i = [] := List.eq_nil_of_length_eq_zero h
    simp [mcqBreakdownGo, he]
  | cons opt rest ih =>
    intro i h
    cases hd : cs.drop i with
    | nil => rw [hd] at h; simp at h
    | cons x xs =>
      have hlen : (cs.drop (i + 1)).length = rest.length := by
        rw [drop_cons_drop_succ cs i x xs hd]
        rw [hd] at h
        simpa using h
      have h0 : cs[i]? = some x := by
        have := List.getElem?_drop cs i 0
        rw [hd] at this
        simpa using this.symm
      simp [mcqBreakdownGo, h0, List.getD_eq_getElem?_getD, ih (i + 1) hlen,
        hd, drop_cons_drop_succ cs i x xs hd]

theorem mcqBreakdownGo_correct_sum (cs : List Nat) :
    ∀ (l : List Answer) (i : Nat), (cs.drop i).length = l.length →
      (((mcqBreakdownGo cs i l).filter fun b => b.isCorrectOption == some true).map
          AnswerBreakdown.studentCount).sum
        = maskedSum (l.map Answer.isCorrect) (cs.drop i) := by
  intro l
  induction l with
  | nil =>
    intro i h
    have he : cs.drop i = [] := List.eq_nil_of_length_eq_zero h
    simp [mcqBreakdownGo, he, maskedSum]
  | cons opt rest ih =>
    intro i h
    cases hd : cs.drop i with
    | nil => rw [hd] at h; simp at h
    | cons x xs =>
      have hlen : (cs.drop (i + 1)).length = rest.length := by
        rw [drop_cons_drop_succ cs i x xs hd]
        rw [hd] at h
        simpa using h
      have hih := ih (i + 1) hlen
      rw [drop_cons_drop_succ cs i x xs hd] at hih
      have h0 : cs[i]? = some x := by
        have := List.getElem?_drop cs i 0
        rw [hd] at this
        simpa using this.symm
      simp only [mcqBreakdownGo, hd, List.map_cons, maskedSum]
      cases hoc : opt.isCorrect with
      | true =>
        simp [List.filter, hih, h0, List.getD_eq_getElem?_getD]
      | false =>
        simp [List.filter, hih]

theorem mem_addIfAbsent (l : List String) (k : String) : k ∈ addIfAbsent l k := by
  unfold addIfAbsent
  by_cases h : l.contains k
  · rw [if_pos h]
    simpa using h
  · rw [if_neg h]
    simp

theorem questionResult_choice (meshCatalogMap : MeshMap) (organGroupMap : GroupMap)
    (subs : List Submission) (q : Question) (qid : String)
    (hty : q.type = QuestionType.multipleChoice ∨ q.type = QuestionType.trueFalse) :
    questionResult meshCatalogMap organGroupMap subs q qid =
      { questionId := qid
        questionText := q.questionText
        questionType := q.type
        totalSubmissionsForQuestion := (questionSubmissions subs qid).length
        totalCorrect := (mcqFold q (questionSubmissions subs qid)).2
        answersBreakdown := mcqBreakdown q (mcqFold q (questionSubmissions subs qid)).1
        submittedTextAnswers := none
        correctTargetDisplayName := correctTargetName meshCatalogMap organGroupMap q } := by
  unfold questionResult
  rw [if_pos hty]

theorem questionResult_selectOrgan (meshCatalogMap : MeshMap) (organGroupMap : GroupMap)
    (subs : List Submission) (q : Question) (qid : String)
    (hty : q.type = QuestionType.selectOrgan) :
    questionResult meshCatalogMap organGroupMap subs q qid =
      { questionId := qid
        questionText := q.questionText
        questionType := q.type
        totalSubmissionsForQuestion := (questionSubmissions subs qid).length
        totalCorrect := (soFold meshCatalogMap q (questionSubmissions subs qid)).2
        answersBreakdown :=
          soBreakdown meshCatalogMap q
            (soFold meshCatalogMap q (questionSubmissions subs qid)).1
        submittedTextAnswers := none
        correctTargetDisplayName := correctTargetName meshCatalogMap organGroupMap q } := by
  unfold questionResult
  rw [if_neg (by rw [hty]; simp), if_pos hty]

theorem questionResult_shortAnswer (meshCatalogMap : MeshMap) (organGroupMap : GroupMap)
    (subs : List Submission) (q : Question) (qid : String)
    (hty : q.type = QuestionType.shortAnswer) :
    questionResult meshCatalogMap organGroupMap subs q qid =
      { questionId := qid
        questionText := q.questionText
        questionType := q.type
        totalSubmissionsForQuestion := (questionSubmissions subs qid).length
        totalCorrect := 0
        answersBreakdown := []
        submittedTextAnswers :=
          some ((questionSubmissions subs qid).map shortAnswerText)
        correctTargetDisplayName := correctTargetName meshCatalogMap organGroupMap q } := by
  unfold questionResult
  rw [if_neg (by rw [hty]; simp), if_neg (by rw [hty]; simp), if_pos hty]

theorem mcq_breakdown_sum_core (q : Question) (l : List SubmissionAnswer) :
    ((mcqBreakdown q (mcqFold q l).1).map AnswerBreakdown.studentCount).sum
      = l.countP (hasValidIndex q) := by
  have hinv := mcq_foldl_invariant q l
    (List.replicate (q.answers.getD []).length 0) 0 (by simp)
  simp only [mcqFold, mcqBreakdown]
  rw [mcqBreakdownGo_map_studentCount _ _ 0
    (by simp only [List.drop_zero]; rw [hinv.1]; simp)]
  simp only [List.drop_zero]
  rw [hinv.2.1, sum_replicate_zero]
  exact Nat.zero_add _

/-- C3: for every multiple-choice or true-false question, the sum of
`studentCount` over all `answersBreakdown` entries equals the number of
that question's considered submission answers whose selected index is
defined and within the bounds of the question's answer list; answers
with a missing or out-of-range index contribute to no tally. -/
theorem C3_choice_tally_conservation (meshCatalogMap : MeshMap)
    (organGroupMap : GroupMap) (subs : List Submission) (q : Question)
    (qid : String)
    (hty : q.type = QuestionType.multipleChoice ∨ q.type = QuestionType.trueFalse) :
    (((questionResult meshCatalogMap organGroupMap subs q qid).answersBreakdown).map
        AnswerBreakdown.studentCount).sum
      = (questionSubmissions subs qid).countP (hasValidIndex q) := by
  rw [questionResult_choice meshCatalogMap organGroupMap subs q qid hty]
  exact mcq_breakdown_sum_core q (questionSubmissions subs qid)

/-- C4: for every multiple-choice or true-false question, `totalCorrect`
equals the sum of `studentCount` over the `answersBreakdown` entries whose
`isCorrectOption` flag is true. -/
theorem C4_choice_totalCorrect_eq_correct_breakdown_sum (meshCatalogMap : MeshMap)
    (organGroupMap : GroupMap) (subs : List Submission) (q : Question)
    (qid : String)
    (hty : q.type = QuestionType.multipleChoice ∨ q.type = QuestionType.trueFalse) :
    (questionResult meshCatalogMap organGroupMap subs q qid).totalCorrect
      = ((((questionResult meshCatalogMap organGroupMap subs q qid).answersBreakdown).filter
            fun b => b.isCorrectOption == some true).map
          AnswerBreakdown.studentCount).sum := by
  rw [questionResult_choice meshCatalogMap organGroupMap subs q qid hty]
  have hinv := mcq_foldl_invariant q (questionSubmissions subs qid)
    (List.replicate (q.answers.getD []).length 0) 0 (by simp)
  simp only [mcqFold, mcqBreakdown]
  rw [mcqBreakdownGo_correct_sum _ _ 0
    (by simp only [List.drop_zero]; rw [hinv.1]; simp)]
  simp only [List.drop_zero]
  rw [hinv.2.2.2, maskedSum_replicate_zero, hinv.2.2.1]

/-- C5: for every multiple-choice or true-false question the breakdown
has one entry per predefined answer option, in the question's original
option order (hence options with a zero tally appear); and for every
select-organ question with a mesh target and a `target_id`, a breakdown
entry for the target mesh (its resolved display name, flagged correct)
is present even when no submission clicked it. -/
theorem C5_zero_response_inclusion (meshCatalogMap : MeshMap)
    (organGroupMap : GroupMap) (subs : List Submission) (q : Question)
    (qid : String) (tid : String) :
    ((q.type = QuestionType.multipleChoice ∨ q.type = QuestionType.trueFalse) →
      ((questionResult meshCatalogMap organGroupMap subs q qid).answersBreakdown).map
          AnswerBreakdown.answerText
        = (q.answers.getD []).map Answer.text)
    ∧ (q.type = QuestionType.selectOrgan →
        q.targetType = some TargetType.mesh → q.target_id = some tid →
        ∃ b ∈ (questionResult meshCatalogMap organGroupMap subs q qid).answersBreakdown,
          b.answerText = soDisplayName meshCatalogMap tid ∧
          b.isCorrectOption = some true) := by
  constructor
  · intro hty
    rw [questionResult_choice meshCatalogMap organGroupMap subs q qid hty]
    simp only [mcqBreakdown]
    exact mcqBreakdownGo_map_answerText _ _ 0
  · intro hty htt htid
    rw [questionResult_selectOrgan meshCatalogMap organGroupMap subs q qid hty]
    have hmem : tid ∈ soBreakdownIds q
        (soFold meshCatalogMap q (questionSubmissions subs qid)).1 := by
      simp only [soBreakdownIds, htt, htid]
      exact mem_addIfAbsent _ tid
    refine ⟨⟨soDisplayName meshCatalogMap tid,
      ((((soFold meshCatalogMap q (questionSubmissions subs qid)).1).lookup tid).getD 0),
      some (soIsCorrect meshCatalogMap q tid)⟩, ?_, rfl, ?_⟩
    · simp only [soBreakdown]
      apply List.mem_append_left
      exact List.mem_map_of_mem _ hmem
    · simp [soIsCorrect, htt, htid]

theorem any_eq_find?_isSome {α : Type} (p : α → Bool) (l : List α) :
    l.any p = (l.find? p).isSome := by
  induction l with
  | nil => rfl
  | cons a as ih => cases h : p a <;> simp [List.any_cons, List.find?, h, ih]

theorem questionSubmissions_eq_filterMap (subs : List Submission) (qid : String) :
    questionSubmissions subs qid
      = subs.filterMap fun sub =>
          sub.answers.find? fun ans => ans.question_id == qid := by
  unfold questionSubmissions
  rw [List.filterMap_map]
  rfl

theorem questionSubmissions_length (subs : List Submission) (qid : String) :
    (questionSubmissions subs qid).length
      = subs.countP fun sub => sub.answers.any fun a => a.question_id == qid := by
  rw [questionSubmissions_eq_filterMap]
  induction subs with
  | nil => rfl
  | cons sub rest ih =>
    rw [List.countP_cons, any_eq_find?_isSome, List.filterMap_cons]
    cases hf : sub.answers.find? fun ans => ans.question_id == qid with
    | none => simp [hf, ih]
    | some a => simp [hf, ih]

theorem find?_eq_head?_filter {α : Type} (p : α → Bool) (l : List α) :
    l.find? p = (l.filter p).head? := by
  induction l with
  | nil => rfl
  | cons a as ih =>
    cases h : p a with
    | true => rw [List.find?_cons_of_pos _ h, List.filter_cons_of_pos h]; rfl
    | false =>
      rw [List.find?_cons_of_neg _ (by simp [h]), List.filter_cons_of_neg (by simp [h])]
      exact ih

theorem length_filterMap_of_isSome {α β : Type} (f : α → Option β) :
    ∀ l : List α, (∀ x ∈ l, (f x).isSome) → (l.filterMap f).length = l.length := by
  intro l
  induction l with
  | nil => intro _; rfl
  | cons a as ih =>
    intro h
    cases hfa : f a with
    | none =>
      exact absurd (h a (by simp)) (by simp [hfa])
    | some b =>
      simp [List.filterMap_cons, hfa, ih fun x hx => h x (by simp [hx])]

theorem questionResult_questionId (meshCatalogMap : MeshMap)
    (organGroupMap : GroupMap) (subs : List Submission) (q : Question)
    (qid : String) :
    (questionResult meshCatalogMap organGroupMap subs q qid).questionId = qid := by
  unfold questionResult
  split
  · rfl
  split
  · rfl
  split
  · rfl
  · rfl

/-- C1: the aggregator emits the `QuestionResult` list in quiz-question
order, keyed by each question's stable id — questions without a stable
id are skipped, not fatal — and when every question has a stable id the
output has exactly one entry per question, in the same order. -/
theorem C1_order_preservation (meshCatalogMap : MeshMap)
    (organGroupMap : GroupMap) (quizQuestions : List Question)
    (subs : List Submission) :
    (getResults meshCatalogMap organGroupMap quizQuestions subs).map
        QuestionResult.questionId
      = quizQuestions.filterMap stableQuestionId
    ∧ ((∀ q ∈ quizQuestions, (stableQuestionId q).isSome) →
        (getResults meshCatalogMap organGroupMap quizQuestions subs).length
          = quizQuestions.length) := by
  have hmap : (getResults meshCatalogMap organGroupMap quizQuestions subs).map
      QuestionResult.questionId = quizQuestions.filterMap stableQuestionId := by
    induction quizQuestions with
    | nil => rfl
    | cons q rest ih =>
      simp only [getResults, List.filterMap_cons] at ih ⊢
      cases hq : stableQuestionId q with
      | none => simp [hq, ih]
      | some s => simp [hq, ih, questionResult_questionId]
  refine ⟨hmap, fun h => ?_⟩
  have hlen := congrArg List.length hmap
  simp only [List.length_map] at hlen
  rw [hlen, length_filterMap_of_isSome _ quizQuestions h]

/-- C7: for every short-answer question, `totalCorrect` is 0 and
`answersBreakdown` is empty; `submittedTextAnswers` lists, in order, one
entry per submission that answered the question, taking the literal
string "No Answer" when the free-text response is absent or empty. -/
theorem C7_short_answer_exclusion (meshCatalogMap : MeshMap)
    (organGroupMap : GroupMap) (subs : List Submission) (q : Question)
    (qid : String) (hty : q.type = QuestionType.shortAnswer) :
    (questionResult meshCatalogMap organGroupMap subs q qid).totalCorrect = 0
    ∧ (questionResult meshCatalogMap organGroupMap subs q qid).answersBreakdown = []
    ∧ (questionResult meshCatalogMap organGroupMap subs q qid).submittedTextAnswers
        = some ((questionSubmissions subs qid).map fun a =>
            match a.responseText_ShortAnswer with
            | some s => if s == "" then "No Answer" else s
            | none => "No Answer")
    ∧ (((questionResult meshCatalogMap organGroupMap subs q qid).submittedTextAnswers).getD
          []).length
        = subs.countP fun sub => sub.answers.any fun a => a.question_id == qid := by
  rw [questionResult_shortAnswer meshCatalogMap organGroupMap subs q qid hty]
  refine ⟨rfl, rfl, rfl, ?_⟩
  simp only [Option.getD_some, List.length_map]
  exact questionSubmissions_length subs qid

/-- C9 (amended): a submission contributes at most one considered answer
per question — the first entry carrying the question id — so a second
entry with the same question id in the same submission is ignored, not
tallied independently. -/
theorem C9_first_matching_answer_only (subs : List Submission) (qid : String) :
    (questionSubmissions subs qid).length
      = subs.countP (fun sub => sub.answers.any fun a => a.question_id == qid)
    ∧ questionSubmissions subs qid
        = subs.filterMap fun sub =>
            (sub.answers.filter fun a => a.question_id == qid).head? := by
  refine ⟨questionSubmissions_length subs qid, ?_⟩
  induction subs with
  | nil => rfl
  | cons sub rest ih =>
    simp only [questionSubmissions, List.map_cons, List.filterMap_cons] at ih ⊢
    rw [← find?_eq_head?_filter]
    cases hf : sub.answers.find? fun ans => ans.question_id == qid with
    | none => simp [hf, ih]
    | some a => simp [hf, ih]

/-- The quiz question used to exhibit the duplicate-answer behaviour:
a two-option multiple-choice question with id "q1". -/
def c9Question : Question :=
  { _id := some "q1"
    questionText := "dup"
    type := QuestionType.multipleChoice
    answers := some [{ text := "A", isCorrect := true },
                     { text := "B", isCorrect := false }]
    targetType := none
    target_id := none }

/-- A submission carrying two answer entries for question "q1": the
first selects option 0, the second selects option 1. -/
def c9Submission : Submission :=
  { answers :=
      [{ question_id := "q1", selectedAnswerId_Index := some 0,
         responseText_ClickedMesh_id := none, responseText_ShortAnswer := none },
       { question_id := "q1", selectedAnswerId_Index := some 1,
         responseText_ClickedMesh_id := none, responseText_ShortAnswer := none }] }

/-- C9 is false as stated: a submission with two answer entries for the
same question id does not have both tallied — only the first is.  Here
the submission carries two valid entries (indices 0 and 1) for "q1",
yet the tallies are `[1, 0]` (the second entry contributed to no count)
and the per-question answer total is 1, not 2. -/
theorem C9_counterexample_only_first_tallied :
    (c9Submission.answers.countP fun a => a.question_id == "q1") = 2
    ∧ ((questionResult [] [] [c9Submission] c9Question "q1").answersBreakdown.map
          AnswerBreakdown.studentCount) = [1, 0]
    ∧ (questionResult [] [] [c9Submission] c9Question "q1").totalSubmissionsForQuestion
        = 1 := by
  refine ⟨?_, ?_, ?_⟩ <;> rfl

/-- Whether one considered submission answer passes the select-organ
correct-count guard: it carries a clicked mesh id that the per-click
correctness decision accepts. -/
def clickedCorrect (meshCatalogMap : MeshMap) (question : Question)
    (a : SubmissionAnswer) : Bool :=
  match a.responseText_ClickedMesh_id with
  | some clickedMeshId => soIsCorrect meshCatalogMap question clickedMeshId
  | none => false

/-- The group-membership set of a mesh id as recorded in the prefetched
mesh catalog: its catalog entry's `organGroupIds`, empty when the mesh
is absent from the catalog or carries no group list.  (This is the
spec's description of group-target correctness, stated independently of
the tally loop, for comparison with `soIsCorrect`.) -/
def meshGroupMembership (meshCatalogMap : MeshMap) (meshId : String) :
    List String :=
  ((meshCatalogMap.lookup meshId).bind MeshCatalogItem.organGroupIds).getD []

theorem bumpCount_map_fst (counts : List (String × Nat)) (key : String) :
    (bumpCount counts key).map Prod.fst
      = if key ∈ counts.map Prod.fst then counts.map Prod.fst
        else counts.map Prod.fst ++ [key] := by
  induction counts with
  | nil => simp [bumpCount]
  | cons p rest ih =>
    obtain ⟨k, v⟩ := p
    by_cases hk : k = key
    · subst hk
      simp [bumpCount]
    · have : (k == key) = false := by simp [hk]
      simp only [bumpCount, this, Bool.false_eq_true, if_false, List.map_cons]
      rw [ih]
      by_cases hmem : key ∈ rest.map Prod.fst
      · simp [hmem, Ne.symm hk]
      · simp [hmem, Ne.symm hk, hk]

theorem bumpCount_vals_sum (counts : List (String × Nat)) (key : String) :
    ((bumpCount counts key).map Prod.snd).sum
      = (counts.map Prod.snd).sum + 1 := by
  induction counts with
  | nil => simp [bumpCount]
  | cons p rest ih =>
    obtain ⟨k, v⟩ := p
    by_cases hk : k = key
    · subst hk
      simp [bumpCount]
      omega
    · have : (k == key) = false := by simp [hk]
      simp only [bumpCount, this, Bool.false_eq_true, if_false, List.map_cons,
        List.sum_cons, ih]
      omega

theorem bumpCount_keys_nodup (counts : List (String × Nat)) (key : String)
    (h : (counts.map Prod.fst).Nodup) :
    ((bumpCount counts key).map Prod.fst).Nodup := by
  rw [bumpCount_map_fst]
  by_cases hmem : key ∈ counts.map Prod.fst
  · simpa [hmem] using h
  · simp only [hmem, if_false]
    rw [List.nodup_append]
    exact ⟨h, List.nodup_singleton key, by simpa using fun hk => hmem hk⟩

theorem mem_keys_bumpCount_self (counts : List (String × Nat)) (key : String) :
    key ∈ (bumpCount counts key).map Prod.fst := by
  rw [bumpCount_map_fst]
  by_cases hmem : key ∈ counts.map Prod.fst
  · simpa [hmem] using hmem
  · simp [hmem]

theorem mem_keys_bumpCount_of_mem (counts : List (String × Nat))
    (key k : String) (h : k ∈ counts.map Prod.fst) :
    k ∈ (bumpCount counts key).map Prod.fst := by
  rw [bumpCount_map_fst]
  by_cases hmem : key ∈ counts.map Prod.fst
  · simpa [hmem] using h
  · simp only [hmem, if_false]
    exact List.mem_append_left _ h

theorem soFold_invariant (meshCatalogMap : MeshMap) (question : Question) :
    ∀ (l : List SubmissionAnswer) (m : List (String × Nat)) (t : Nat),
      (((m.map Prod.fst).Nodup →
          ((l.foldl (fun acc submittedAnswer =>
              match submittedAnswer.responseText_ClickedMesh_id with
              | some clickedMeshId =>
                  (bumpCount acc.1 clickedMeshId,
                   if soIsCorrect meshCatalogMap question clickedMeshId then
                     acc.2 + 1
                   else acc.2)
              | none => (bumpCount acc.1 "No Answer", acc.2)) (m, t)).1.map
            Prod.fst).Nodup)
        ∧ ((l.foldl (fun acc submittedAnswer =>
              match submittedAnswer.responseText_ClickedMesh_id with
              | some clickedMeshId =>
                  (bumpCount acc.1 clickedMeshId,
                   if soIsCorrect meshCatalogMap question clickedMeshId then
                     acc.2 + 1
                   else acc.2)
              | none => (bumpCount acc.1 "No Answer", acc.2)) (m, t)).1.map
            Prod.snd).sum = (m.map Prod.snd).sum + l.length
        ∧ (l.foldl (fun acc submittedAnswer =>
              match submittedAnswer.responseText_ClickedMesh_id with
              | some clickedMeshId =>
                  (bumpCount acc.1 clickedMeshId,
                   if soIsCorrect meshCatalogMap question clickedMeshId then
                     acc.2 + 1
                   else acc.2)
              | none => (bumpCount acc.1 "No Answer", acc.2)) (m, t)).2
            = t + l.countP (clickedCorrect meshCatalogMap question)
        ∧ (∀ k, k ∈ m.map Prod.fst →
            k ∈ ((l.foldl (fun acc submittedAnswer =>
              match submittedAnswer.responseText_ClickedMesh_id with
              | some clickedMeshId =>
                  (bumpCount acc.1 clickedMeshId,
                   if soIsCorrect meshCatalogMap question clickedMeshId then
                     acc.2 + 1
                   else acc.2)
              | none => (bumpCount acc.1 "No Answer", acc.2)) (m, t)).1.map
              Prod.fst))
        ∧ (∀ a ∈ l, ∀ cid, a.responseText_ClickedMesh_id = some cid →
            cid ∈ ((l.foldl (fun acc submittedAnswer =>
              match submittedAnswer.responseText_ClickedMesh_id with
              | some clickedMeshId =>
                  (bumpCount acc.1 clickedMeshId,
                   if soIsCorrect meshCatalogMap question clickedMeshId then
                     acc.2 + 1
                   else acc.2)
              | none => (bumpCount acc.1 "No Answer", acc.2)) (m, t)).1.map
              Prod.fst))) := by
  intro l
  induction l with
  | nil =>
    intro m t
    exact ⟨fun h => h, by simp, by simp [List.countP_nil], fun k hk => hk,
      fun a ha => absurd ha (List.not_mem_nil a)⟩
  | cons a rest ih =>
    intro m t
    cases hcid : a.responseText_ClickedMesh_id with
    | some cid =>
      have hstep := ih (bumpCount m cid)
        (if soIsCorrect meshCatalogMap question cid then t + 1 else t)
      simp only [List.foldl_cons, hcid]
      refine ⟨fun hnd => hstep.1 (bumpCount_keys_nodup m cid hnd), ?_, ?_, ?_, ?_⟩
      · rw [hstep.2.1, bumpCount_vals_sum]
        simp [Nat.add_assoc, Nat.add_comm, Nat.add_left_comm]
      · rw [hstep.2.2.1, List.countP_cons]
        simp only [clickedCorrect, hcid]
        by_cases hco : soIsCorrect meshCatalogMap question cid = true <;>
          simp [hco] <;> omega
      · intro k hk
        exact hstep.2.2.2.1 k (mem_keys_bumpCount_of_mem m cid k hk)
      · intro a' ha' cid' hcid'
        rcases List.mem_cons.mp ha' with h | h
        · subst h
          rw [hcid] at hcid'
          injection hcid' with h'
          subst h'
          exact hstep.2.2.2.1 cid (mem_keys_bumpCount_self m cid)
        · exact hstep.2.2.2.2 a' h cid' hcid'
    | none =>
      have hstep := ih (bumpCount m "No Answer") t
      simp only [List.foldl_cons, hcid]
      refine ⟨fun hnd => hstep.1 (bumpCount_keys_nodup m _ hnd), ?_, ?_, ?_, ?_⟩
      · rw [hstep.2.1, bumpCount_vals_sum]
        simp [Nat.add_assoc, Nat.add_comm, Nat.add_left_comm]
      · rw [hstep.2.2.1, List.countP_cons]
        simp [clickedCorrect, hcid]
      · intro k hk
        exact hstep.2.2.2.1 k (mem_keys_bumpCount_of_mem m _ k hk)
      · intro a' ha' cid' hcid'
        rcases List.mem_cons.mp ha' with h | h
        · subst h
          rw [hcid] at hcid'
          exact absurd hcid' (by simp)
        · exact hstep.2.2.2.2 a' h cid' hcid'

theorem soFold_spec (meshCatalogMap : MeshMap) (question : Question)
    (l : List SubmissionAnswer) :
    ((soFold meshCatalogMap question l).1.map Prod.fst).Nodup
    ∧ ((soFold meshCatalogMap question l).1.map Prod.snd).sum = l.length
    ∧ (soFold meshCatalogMap question l).2
        = l.countP (clickedCorrect meshCatalogMap question)
    ∧ (∀ a ∈ l, ∀ cid, a.responseText_ClickedMesh_id = some cid →
        cid ∈ (soFold meshCatalogMap question l).1.map Prod.fst) := by
  unfold soFold
  have h := soFold_invariant meshCatalogMap question l [] 0
  exact ⟨h.1 (by simp), by simpa using h.2.1, by simpa using h.2.2.1,
    h.2.2.2.2⟩

theorem countP_filterMap {α β : Type} (f : α → Option β) (p : β → Bool)
    (l : List α) :
    (l.filterMap f).countP p = l.countP fun a => ((f a).map p).getD false := by
  induction l with
  | nil => rfl
  | cons a as ih =>
    rw [List.filterMap_cons, List.countP_cons]
    cases hfa : f a with
    | none => simp [hfa, ih]
    | some b => rw [List.countP_cons]; simp [hfa, ih]

theorem soIsCorrect_group (meshCatalogMap : MeshMap) (q : Question)
    (tid cid : String) (hg : q.targetType = some TargetType.group)
    (ht : q.target_id = some tid) :
    soIsCorrect meshCatalogMap q cid
      = decide (tid ∈ meshGroupMembership meshCatalogMap cid) := by
  rw [Bool.eq_iff_iff, decide_eq_true_eq]
  simp only [soIsCorrect, meshGroupMembership, hg, ht]
  cases hl : meshCatalogMap.lookup cid with
  | none => simp
  | some d =>
    cases hgi : d.organGroupIds with
    | none => simp [hgi]
    | some gids =>
      simp [hgi, List.any_eq_true]

/-- C2: for every select-organ question with a group target, the
per-question correct count equals the number of clicked-mesh answers
whose clicked mesh has the question's target group id in its
group-membership set as recorded in the prefetched catalog (an empty set
when the mesh is absent from the catalog or carries no group list). -/
theorem C2_group_transitivity (meshCatalogMap : MeshMap)
    (organGroupMap : GroupMap) (subs : List Submission) (q : Question)
    (qid : String) (tid : String) (hty : q.type = QuestionType.selectOrgan)
    (hg : q.targetType = some TargetType.group)
    (ht : q.target_id = some tid) :
    (questionResult meshCatalogMap organGroupMap subs q qid).totalCorrect
      = ((questionSubmissions subs qid).filterMap
            SubmissionAnswer.responseText_ClickedMesh_id).countP
          fun cid => decide (tid ∈ meshGroupMembership meshCatalogMap cid) := by
  rw [questionResult_selectOrgan meshCatalogMap organGroupMap subs q qid hty]
  show (soFold meshCatalogMap q (questionSubmissions subs qid)).2 = _
  rw [(soFold_spec meshCatalogMap q _).2.2.1, countP_filterMap]
  apply List.countP_congr
  intro a _
  simp only [clickedCorrect]
  cases hc : a.responseText_ClickedMesh_id with
  | none => simp
  | some cid => simp [soIsCorrect_group meshCatalogMap q tid cid hg ht]

/-- C10: mesh-target correctness is plain id equality between the
clicked-mesh id and `target_id`, for every catalog whatsoever (so a
click on a catalog-deleted target mesh still counts correct), while
group-target correctness is always false for a clicked mesh absent from
the prefetched catalog, whatever its actual group memberships. -/
theorem C10_mesh_equality_vs_group_catalog (meshCatalogMap : MeshMap)
    (q : Question) (cid : String) :
    (q.targetType = some TargetType.mesh →
      (soIsCorrect meshCatalogMap q cid = true ↔ q.target_id = some cid))
    ∧ (q.targetType = some TargetType.group →
        meshCatalogMap.lookup cid = none →
        soIsCorrect meshCatalogMap q cid = false) := by
  constructor
  · intro htt
    simp only [soIsCorrect, htt]
    constructor
    · intro h
      exact (beq_iff_eq.mp h).symm
    · intro h
      rw [h]
      simp
  · intro hg hl
    simp [soIsCorrect, hg, hl]

theorem mem_addIfAbsent_of_mem (l : List String) (k x : String) (h : x ∈ l) :
    x ∈ addIfAbsent l k := by
  unfold addIfAbsent
  split
  · exact h
  · exact List.mem_append_left _ h

theorem mem_soBreakdownIds (q : Question) (counts : List (String × Nat))
    (cid : String) (h : cid ∈ counts.map Prod.fst)
    (hne : cid ≠ "No Answer") : cid ∈ soBreakdownIds q counts := by
  have hf : cid ∈ (counts.map Prod.fst).filter fun k => k != "No Answer" :=
    List.mem_filter.mpr ⟨h, by simp [hne]⟩
  simp only [soBreakdownIds]
  split
  · exact mem_addIfAbsent_of_mem _ _ _ hf
  · exact hf

/-- C8: a select-organ answer whose clicked mesh id is absent from the
prefetched catalog never aborts aggregation — the submission still
counts toward `totalSubmissionsForQuestion`, and the breakdown contains
an entry whose display name is the placeholder embedding the first six
characters of the dangling id. -/
theorem C8_dangling_mesh_reference (meshCatalogMap : MeshMap)
    (organGroupMap : GroupMap) (subs : List Submission) (q : Question)
    (qid : String) (cid : String) (a : SubmissionAnswer)
    (hty : q.type = QuestionType.selectOrgan)
    (ha : a ∈ questionSubmissions subs qid)
    (hcid : a.responseText_ClickedMesh_id = some cid)
    (hmiss : meshCatalogMap.lookup cid = none)
    (hne : cid ≠ "No Answer") :
    0 < (questionResult meshCatalogMap organGroupMap subs q
          qid).totalSubmissionsForQuestion
    ∧ ∃ b ∈ (questionResult meshCatalogMap organGroupMap subs q
          qid).answersBreakdown,
        b.answerText = "Unknown Mesh (" ++ cid.take 6 ++ "...)" := by
  rw [questionResult_selectOrgan meshCatalogMap organGroupMap subs q qid hty]
  constructor
  · show 0 < (questionSubmissions subs qid).length
    exact List.length_pos.mpr (List.ne_nil_of_mem ha)
  · have hkey : cid ∈ (soFold meshCatalogMap q
        (questionSubmissions subs qid)).1.map Prod.fst :=
      (soFold_spec meshCatalogMap q _).2.2.2 a ha cid hcid
    have hid : cid ∈ soBreakdownIds q
        (soFold meshCatalogMap q (questionSubmissions subs qid)).1 :=
      mem_soBreakdownIds q _ cid hkey hne
    refine ⟨⟨soDisplayName meshCatalogMap cid,
      ((((soFold meshCatalogMap q (questionSubmissions subs qid)).1).lookup
          cid).getD 0),
      some (soIsCorrect meshCatalogMap q cid)⟩, ?_, ?_⟩
    · simp only [soBreakdown]
      exact List.mem_append_left _ (List.mem_map_of_mem _ hid)
    · simp [soDisplayName, hmiss]

theorem lookup_eq_none_of_not_mem (m : List (String × Nat)) (k : String)
    (h : k ∉ m.map Prod.fst) : List.lookup k m = none := by
  induction m with
  | nil => rfl
  | cons p rest ih =>
    obtain ⟨k', v⟩ := p
    simp only [List.map_cons, List.mem_cons] at h
    push_neg at h
    have hne : (k == k') = false := by simp [h.1]
    simp [List.lookup, hne, ih h.2]

theorem lookup_cons_ne (m : List (String × Nat)) (k k' : String) (v : Nat)
    (h : k ≠ k') : List.lookup k ((k', v) :: m) = List.lookup k m := by
  have hne : (k == k') = false := by simp [h]
  simp [List.lookup, hne]

theorem lookup_cons_self (m : List (String × Nat)) (k : String) (v : Nat) :
    List.lookup k ((k, v) :: m) = some v := by
  simp [List.lookup]

theorem sum_lookup_shift (m : List (String × Nat)) (k' : String) (v : Nat)
    (ids : List String) (h : ∀ id ∈ ids, id ≠ k') :
    (ids.map fun id => (List.lookup id ((k', v) :: m)).getD 0).sum
      = (ids.map fun id => (List.lookup id m).getD 0).sum := by
  induction ids with
  | nil => rfl
  | cons i is ih =>
    simp only [List.map_cons, List.sum_cons]
    rw [lookup_cons_ne m i k' v (h i (by simp)),
      ih fun id hid => h id (by simp [hid])]

theorem breakdown_sum_keys :
    ∀ m : List (String × Nat), (m.map Prod.fst).Nodup →
      (((m.map Prod.fst).filter fun k => k != "No Answer").map
          fun id => (List.lookup id m).getD 0).sum
        + (List.lookup "No Answer" m).getD 0
        = (m.map Prod.snd).sum := by
  intro m
  induction m with
  | nil => intro _; simp
  | cons p rest ih =>
    intro hnd
    obtain ⟨k, v⟩ := p
    simp only [List.map_cons, List.nodup_cons] at hnd ⊢
    have hk : k ∉ rest.map Prod.fst := hnd.1
    have ihr := ih hnd.2
    by_cases hkNA : k = "No Answer"
    · subst hkNA
      rw [List.filter_cons_of_neg (by simp)]
      rw [sum_lookup_shift rest "No Answer" v _ (fun id hid => by
        have hpred := (List.mem_filter.mp hid).2
        simpa using hpred)]
      rw [lookup_cons_self rest "No Answer" v]
      have hnone : List.lookup "No Answer" rest = none :=
        lookup_eq_none_of_not_mem rest _ hk
      rw [hnone] at ihr
      simp only [Option.getD_some, Option.getD_none, List.sum_cons] at ihr ⊢
      omega
    · rw [List.filter_cons_of_pos (by simp [hkNA])]
      simp only [List.map_cons, List.sum_cons]
      rw [lookup_cons_self rest k v]
      rw [sum_lookup_shift rest k v _ (fun id hid he =>
        hk (he ▸ (List.mem_filter.mp hid).1))]
      rw [lookup_cons_ne rest "No Answer" k v fun he => hkNA he.symm]
      simp only [Option.getD_some]
      omega

theorem soBreakdown_sum (meshCatalogMap : MeshMap) (q : Question)
    (m : List (String × Nat)) (hnd : (m.map Prod.fst).Nodup)
    (hNA : q.target_id ≠ some "No Answer") :
    ((soBreakdown meshCatalogMap q m).map AnswerBreakdown.studentCount).sum
      = (m.map Prod.snd).sum := by
  have hmain := breakdown_sum_keys m hnd
  have hna : ((match List.lookup "No Answer" m with
      | some n =>
          if n == 0 then []
          else [({ answerText := "No Answer", studentCount := n,
                   isCorrectOption := some false } : AnswerBreakdown)]
      | none => ([] : List AnswerBreakdown)).map
        AnswerBreakdown.studentCount).sum
      = (List.lookup "No Answer" m).getD 0 := by
    cases hl : List.lookup "No Answer" m with
    | none => simp
    | some n =>
      by_cases hn : n = 0
      · subst hn; simp
      · simp [hn]
  unfold soBreakdown
  rw [List.map_append, List.sum_append, hna]
  rw [List.map_map]
  have hids : ∀ ids : List String,
      (ids.map (AnswerBreakdown.studentCount ∘ fun meshIdStr =>
        ({ answerText := soDisplayName meshCatalogMap meshIdStr,
           studentCount := (List.lookup meshIdStr m).getD 0,
           isCorrectOption := some (soIsCorrect meshCatalogMap q meshIdStr) } :
            AnswerBreakdown)))
        = ids.map fun id => (List.lookup id m).getD 0 := fun ids => rfl
  rw [hids]
  rcases htt : q.targetType with _ | tt
  · simp only [soBreakdownIds, htt]
    exact hmain
  · cases tt with
    | group =>
      simp only [soBreakdownIds, htt]
      exact hmain
    | mesh =>
      cases hti : q.target_id with
      | none =>
        simp only [soBreakdownIds, htt, hti]
        exact hmain
      | some tid =>
        have htid : tid ≠ "No Answer" := fun h => hNA (by rw [hti, h])
        simp only [soBreakdownIds, htt, hti]
        unfold addIfAbsent
        by_cases hc :
            ((m.map Prod.fst).filter fun k => k != "No Answer").contains tid
        · rw [if_pos hc]
          exact hmain
        · rw [if_neg hc]
          rw [List.map_append, List.sum_append]
          have hnotkey : tid ∉ m.map Prod.fst := by
            intro hmem
            exact hc (List.elem_iff.mpr
              (List.mem_filter.mpr ⟨hmem, by simp [htid]⟩))
          rw [show (([tid].map fun id => (List.lookup id m).getD 0)).sum
              = (List.lookup tid m).getD 0 by simp]
          rw [lookup_eq_none_of_not_mem m tid hnotkey]
          simpa using hmain

theorem questionResult_totalSubmissions (meshCatalogMap : MeshMap)
    (organGroupMap : GroupMap) (subs : List Submission) (q : Question)
    (qid : String) :
    (questionResult meshCatalogMap organGroupMap subs q
        qid).totalSubmissionsForQuestion
      = (questionSubmissions subs qid).length := by
  unfold questionResult
  split
  · rfl
  split
  · rfl
  split
  · rfl
  · rfl

/-- C6: `totalSubmissionsForQuestion` counts the submissions containing
at least one answer entry correlated to the question id (valid or not),
and it dominates the sum of `studentCount` over the question's
breakdown.  (The `target_id ≠ "No Answer"` side condition only encodes
that a target id is a Mongo ObjectId hex string, which can never equal
the literal `"No Answer"` marker.) -/
theorem C6_totalSubmissions_dominates_tallies (meshCatalogMap : MeshMap)
    (organGroupMap : GroupMap) (subs : List Submission) (q : Question)
    (qid : String) (hNA : q.target_id ≠ some "No Answer") :
    (questionResult meshCatalogMap organGroupMap subs q
        qid).totalSubmissionsForQuestion
      = subs.countP (fun sub => sub.answers.any fun a => a.question_id == qid)
    ∧ (((questionResult meshCatalogMap organGroupMap subs q
          qid).answersBreakdown).map AnswerBreakdown.studentCount).sum
        ≤ (questionResult meshCatalogMap organGroupMap subs q
            qid).totalSubmissionsForQuestion := by
  constructor
  · rw [questionResult_totalSubmissions]
    exact questionSubmissions_length subs qid
  · rw [questionResult_totalSubmissions]
    cases hqt : q.type with
    | multipleChoice =>
      rw [questionResult_choice meshCatalogMap organGroupMap subs q qid
        (Or.inl hqt)]
      show ((mcqBreakdown q (mcqFold q (questionSubmissions subs qid)).1).map
        AnswerBreakdown.studentCount).sum ≤ (questionSubmissions subs qid).length
      rw [mcq_breakdown_sum_core]
      exact List.countP_le_length _
    | trueFalse =>
      rw [questionResult_choice meshCatalogMap organGroupMap subs q qid
        (Or.inr hqt)]
      show ((mcqBreakdown q (mcqFold q (questionSubmissions subs qid)).1).map
        AnswerBreakdown.studentCount).sum ≤ (questionSubmissions subs qid).length
      rw [mcq_breakdown_sum_core]
      exact List.countP_le_length _
    | selectOrgan =>
      rw [questionResult_selectOrgan meshCatalogMap organGroupMap subs q qid hqt]
      show ((soBreakdown meshCatalogMap q
          (soFold meshCatalogMap q (questionSubmissions subs qid)).1).map
        AnswerBreakdown.studentCount).sum ≤ (questionSubmissions subs qid).length
      rw [soBreakdown_sum meshCatalogMap q _
        (soFold_spec meshCatalogMap q _).1 hNA]
      rw [(soFold_spec meshCatalogMap q (questionSubmissions subs qid)).2.1]
    | shortAnswer =>
      rw [questionResult_shortAnswer meshCatalogMap organGroupMap subs q qid hqt]
      show (([] : List AnswerBreakdown).map AnswerBreakdown.studentCount).sum
        ≤ (questionSubmissions subs qid).length
      simp

/-- A three-option multiple-choice question ("3", "4" correct, "5"),
per the spec's worked MCQ scenario. -/
def wQmc : Question :=
  { _id := some "q1"
    questionText := "sum"
    type := QuestionType.multipleChoice
    answers := some [{ text := "3", isCorrect := false },
                     { text := "4", isCorrect := true },
                     { text := "5", isCorrect := false }]
    targetType := none
    target_id := none }

/-- Four submissions for `wQmc`: indices 1, 0, 1 and an out-of-range 99. -/
def wSubsMC : List Submission :=
  [{ answers := [{ question_id := "q1", selectedAnswerId_Index := some 1,
                   responseText_ClickedMesh_id := none,
                   responseText_ShortAnswer := none }] },
   { answers := [{ question_id := "q1", selectedAnswerId_Index := some 0,
                   responseText_ClickedMesh_id := none,
                   responseText_ShortAnswer := none }] },
   { answers := [{ question_id := "q1", selectedAnswerId_Index := some 1,
                   responseText_ClickedMesh_id := none,
                   responseText_ShortAnswer := none }] },
   { answers := [{ question_id := "q1", selectedAnswerId_Index := some 99,
                   responseText_ClickedMesh_id := none,
                   responseText_ShortAnswer := none }] }]

/-- A small mesh catalog: a mesh in one group, one in two groups, one in
zero groups. -/
def wMeshCatalog : MeshMap :=
  [("heartid", { displayName := "Heart", organGroupIds := some ["g1"] }),
   ("lungid", { displayName := "Lung", organGroupIds := some ["g2", "g1"] }),
   ("ribid", { displayName := "Rib", organGroupIds := some [] })]

/-- A mesh-target select-organ question targeting `heartid`. -/
def wQmesh : Question :=
  { _id := some "q2"
    questionText := "click the heart"
    type := QuestionType.selectOrgan
    answers := none
    targetType := some TargetType.mesh
    target_id := some "heartid" }

/-- One submission for `wQmesh` clicking `lungid` (never the target). -/
def wSubsMesh : List Submission :=
  [{ answers := [{ question_id := "q2", selectedAnswerId_Index := none,
                   responseText_ClickedMesh_id := some "lungid",
                   responseText_ShortAnswer := none }] }]

/-- A group-target select-organ question targeting group `g1`. -/
def wQgroup : Question :=
  { _id := some "q3"
    questionText := "click something in g1"
    type := QuestionType.selectOrgan
    answers := none
    targetType := some TargetType.group
    target_id := some "g1" }

/-- Four submissions for `wQgroup`: clicks on the one-group mesh, the
two-group mesh, the zero-group mesh, and a mesh id absent from the
catalog. -/
def wSubsGroup : List Submission :=
  [{ answers := [{ question_id := "q3", selectedAnswerId_Index := none,
                   responseText_ClickedMesh_id := some "heartid",
                   responseText_ShortAnswer := none }] },
   { answers := [{ question_id := "q3", selectedAnswerId_Index := none,
                   responseText_ClickedMesh_id := some "lungid",
                   responseText_ShortAnswer := none }] },
   { answers := [{ question_id := "q3", selectedAnswerId_Index := none,
                   responseText_ClickedMesh_id := some "ribid",
                   responseText_ShortAnswer := none }] },
   { answers := [{ question_id := "q3", selectedAnswerId_Index := none,
                   responseText_ClickedMesh_id := some "deadbe",
                   responseText_ShortAnswer := none }] }]

/-- A short-answer question. -/
def wQsa : Question :=
  { _id := some "q4"
    questionText := "why"
    type := QuestionType.shortAnswer
    answers := none
    targetType := none
    target_id := none }

/-- Three submissions for `wQsa`: a real answer, an empty string, and a
missing response. -/
def wSubsSA : List Submission :=
  [{ answers := [{ question_id := "q4", selectedAnswerId_Index := none,
                   responseText_ClickedMesh_id := none,
                   responseText_ShortAnswer := some "Breathing" }] },
   { answers := [{ question_id := "q4", selectedAnswerId_Index := none,
                   responseText_ClickedMesh_id := none,
                   responseText_ShortAnswer := some "" }] },
   { answers := [{ question_id := "q4", selectedAnswerId_Index := none,
                   responseText_ClickedMesh_id := none,
                   responseText_ShortAnswer := none }] }]

theorem C1_witness :
    (∀ q ∈ [wQmc, wQsa], (stableQuestionId q).isSome)
    ∧ (getResults wMeshCatalog [] [wQmc, wQsa] wSubsMC).map
        QuestionResult.questionId = [wQmc, wQsa].filterMap stableQuestionId
    ∧ (getResults wMeshCatalog [] [wQmc, wQsa] wSubsMC).length
        = ([wQmc, wQsa] : List Question).length :=
  ⟨by decide,
   (C1_order_preservation wMeshCatalog [] [wQmc, wQsa] wSubsMC).1,
   (C1_order_preservation wMeshCatalog [] [wQmc, wQsa] wSubsMC).2 (by decide)⟩

theorem C2_witness :
    (wQgroup.type = QuestionType.selectOrgan
      ∧ wQgroup.targetType = some TargetType.group
      ∧ wQgroup.target_id = some "g1")
    ∧ (questionResult wMeshCatalog [] wSubsGroup wQgroup "q3").totalCorrect
        = ((questionSubmissions wSubsGroup "q3").filterMap
              SubmissionAnswer.responseText_ClickedMesh_id).countP
            (fun cid => decide ("g1" ∈ meshGroupMembership wMeshCatalog cid))
    ∧ (questionResult wMeshCatalog [] wSubsGroup wQgroup "q3").totalCorrect = 2 :=
  ⟨⟨rfl, rfl, rfl⟩,
   C2_group_transitivity wMeshCatalog [] wSubsGroup wQgroup "q3" "g1" rfl rfl rfl,
   by decide⟩

theorem C3_witness :
    (wQmc.type = QuestionType.multipleChoice ∨ wQmc.type = QuestionType.trueFalse)
    ∧ (((questionResult wMeshCatalog [] wSubsMC wQmc "q1").answersBreakdown).map
          AnswerBreakdown.studentCount).sum
        = (questionSubmissions wSubsMC "q1").countP (hasValidIndex wQmc)
    ∧ (questionSubmissions wSubsMC "q1").countP (hasValidIndex wQmc) = 3 :=
  ⟨Or.inl rfl,
   C3_choice_tally_conservation wMeshCatalog [] wSubsMC wQmc "q1" (Or.inl rfl),
   by decide⟩

theorem C4_witness :
    (wQmc.type = QuestionType.multipleChoice ∨ wQmc.type = QuestionType.trueFalse)
    ∧ (questionResult wMeshCatalog [] wSubsMC wQmc "q1").totalCorrect
        = ((((questionResult wMeshCatalog [] wSubsMC wQmc "q1").answersBreakdown).filter
              fun b => b.isCorrectOption == some true).map
            AnswerBreakdown.studentCount).sum
    ∧ (questionResult wMeshCatalog [] wSubsMC wQmc "q1").totalCorrect = 2 :=
  ⟨Or.inl rfl,
   C4_choice_totalCorrect_eq_correct_breakdown_sum wMeshCatalog [] wSubsMC wQmc
     "q1" (Or.inl rfl),
   by decide⟩

theorem C5_witness :
    ((questionResult wMeshCatalog [] wSubsMC wQmc "q1").answersBreakdown.map
        AnswerBreakdown.answerText = (wQmc.answers.getD []).map Answer.text)
    ∧ ∃ b ∈ (questionResult wMeshCatalog [] wSubsMesh wQmesh
          "q2").answersBreakdown,
        b.answerText = soDisplayName wMeshCatalog "heartid"
        ∧ b.isCorrectOption = some true :=
  ⟨(C5_zero_response_inclusion wMeshCatalog [] wSubsMC wQmc "q1" "heartid").1
      (Or.inl rfl),
   (C5_zero_response_inclusion wMeshCatalog [] wSubsMesh wQmesh "q2"
      "heartid").2 rfl rfl rfl⟩

theorem C6_witness :
    wQgroup.target_id ≠ some "No Answer"
    ∧ (questionResult wMeshCatalog [] wSubsGroup wQgroup
          "q3").totalSubmissionsForQuestion
        = wSubsGroup.countP
            (fun sub => sub.answers.any fun a => a.question_id == "q3")
    ∧ (((questionResult wMeshCatalog [] wSubsGroup wQgroup
          "q3").answersBreakdown).map AnswerBreakdown.studentCount).sum
        ≤ (questionResult wMeshCatalog [] wSubsGroup wQgroup
            "q3").totalSubmissionsForQuestion :=
  ⟨by decide,
   (C6_totalSubmissions_dominates_tallies wMeshCatalog [] wSubsGroup wQgroup
      "q3" (by decide)).1,
   (C6_totalSubmissions_dominates_tallies wMeshCatalog [] wSubsGroup wQgroup
      "q3" (by decide)).2⟩

theorem C7_witness :
    wQsa.type = QuestionType.shortAnswer
    ∧ (questionResult [] [] wSubsSA wQsa "q4").totalCorrect = 0
    ∧ (questionResult [] [] wSubsSA wQsa "q4").answersBreakdown = []
    ∧ (questionResult [] [] wSubsSA wQsa "q4").submittedTextAnswers
        = some ["Breathing", "No Answer", "No Answer"] :=
  ⟨rfl, (C7_short_answer_exclusion [] [] wSubsSA wQsa "q4" rfl).1,
   (C7_short_answer_exclusion [] [] wSubsSA wQsa "q4" rfl).2.1, by decide⟩

theorem C8_witness :
    (wMeshCatalog.lookup "deadbe" = none ∧ ("deadbe" : String) ≠ "No Answer")
    ∧ 0 < (questionResult wMeshCatalog [] wSubsGroup wQgroup
          "q3").totalSubmissionsForQuestion
    ∧ ∃ b ∈ (questionResult wMeshCatalog [] wSubsGroup wQgroup
          "q3").answersBreakdown,
        b.answerText = "Unknown Mesh (" ++ ("deadbe" : String).take 6 ++ "...)" :=
  ⟨⟨by decide, by decide⟩,
   (C8_dangling_mesh_reference wMeshCatalog [] wSubsGroup wQgroup "q3" "deadbe"
      { question_id := "q3", selectedAnswerId_Index := none,
        responseText_ClickedMesh_id := some "deadbe",
        responseText_ShortAnswer := none }
      rfl (by decide) rfl (by decide) (by decide)).1,
   (C8_dangling_mesh_reference wMeshCatalog [] wSubsGroup wQgroup "q3" "deadbe"
      { question_id := "q3", selectedAnswerId_Index := none,
        responseText_ClickedMesh_id := some "deadbe",
        responseText_ShortAnswer := none }
      rfl (by decide) rfl (by decide) (by decide)).2⟩

theorem C10_witness :
    (soIsCorrect [] wQmesh "heartid" = true ↔ wQmesh.target_id = some "heartid")
    ∧ (wMeshCatalog.lookup "deadbe" = none
        ∧ soIsCorrect wMeshCatalog wQgroup "deadbe" = false) :=
  ⟨(C10_mesh_equality_vs_group_catalog [] wQmesh "heartid").1 rfl,
   ⟨by decide,
    (C10_mesh_equality_vs_group_catalog wMeshCatalog wQgroup "deadbe").2 rfl
      (by decide)⟩⟩

end QuizResults
